import Mathlib

/-!
Verification of the CamControl camera-rig geometry engine and rig controller
(`src/scene/CameraRig.js`) and of the analysis-service fallback behaviour
(`src/services/gemini.js`).  JavaScript numbers are modelled as real numbers;
vectors as triples of reals.  Each definition carries a pointer to the source
lines it embeds.
-/

noncomputable section

namespace CamControl

/-- The camera control state held by `CameraRig` (CameraRig.js lines 13-19):
distance, horizontal/vertical orbit angles, pan and tilt offsets, all numbers
(angles in degrees). -/
structure CameraState where
  distance : ℝ
  orbitH : ℝ
  orbitV : ℝ
  pan : ℝ
  tilt : ℝ

/-- `THREE.MathUtils.degToRad`: degrees to radians. -/
def degToRad (d : ℝ) : ℝ := d * (Real.pi / 180)

/-- A 3-component vector, as `THREE.Vector3`. -/
structure Vec3 where
  x : ℝ
  y : ℝ
  z : ℝ

namespace Vec3

/-- Componentwise addition. -/
def add (a b : Vec3) : Vec3 := ⟨a.x + b.x, a.y + b.y, a.z + b.z⟩

/-- Scalar multiplication. -/
def smul (c : ℝ) (v : Vec3) : Vec3 := ⟨c * v.x, c * v.y, c * v.z⟩

/-- Componentwise negation. -/
def neg (v : Vec3) : Vec3 := ⟨-v.x, -v.y, -v.z⟩

/-- Dot product. -/
def dot (a b : Vec3) : ℝ := a.x * b.x + a.y * b.y + a.z * b.z

/-- Cross product, as `THREE.Vector3.crossVectors`. -/
def cross (a b : Vec3) : Vec3 :=
  ⟨a.y * b.z - a.z * b.y, a.z * b.x - a.x * b.z, a.x * b.y - a.y * b.x⟩

/-- Euclidean length, as `THREE.Vector3.length`. -/
def length (v : Vec3) : ℝ := Real.sqrt (v.x ^ 2 + v.y ^ 2 + v.z ^ 2)

/-- `THREE.Vector3.normalize`: divides by `length() || 1`, so the zero vector
is left unchanged rather than producing NaN. -/
def normalize (v : Vec3) : Vec3 :=
  smul (1 / (if length v = 0 then 1 else length v)) v

end Vec3

/-- The camera position computed by `updatePosition` (CameraRig.js lines
182-189) and recomputed identically in `updateViewportFrame` (lines 214-218):
spherical-to-cartesian conversion about the origin. -/
def positionOf (s : CameraState) : Vec3 :=
  let theta := degToRad s.orbitH
  let phi := degToRad s.orbitV
  ⟨s.distance * Real.cos phi * Real.sin theta,
   s.distance * Real.sin phi,
   s.distance * Real.cos phi * Real.cos theta⟩

/-- The image-plane descriptor held by `CameraRig` (lines 25-27, mutated by
`setAspectRatio` and `setImageSize`): aspect ratio and scene-space image
width/height. -/
structure ImagePlane where
  aspectRatio : ℝ
  imageWidth : ℝ
  imageHeight : ℝ

/-- World up vector `(0, 1, 0)` (CameraRig.js line 230). -/
def worldUp : Vec3 := ⟨0, 1, 0⟩

/-- The unadjusted look direction `normalize(-camPos)` (line 222). -/
def lookDir (s : CameraState) : Vec3 := Vec3.normalize (Vec3.neg (positionOf s))

/-- Camera-basis right vector `normalize(cross(forward, worldUp))` (line 231). -/
def rightVec (s : CameraState) : Vec3 :=
  Vec3.normalize (Vec3.cross (lookDir s) worldUp)

/-- Camera-basis up vector `normalize(cross(right, forward))` (line 232);
note it uses the unrotated forward direction. -/
def upVec (s : CameraState) : Vec3 :=
  Vec3.normalize (Vec3.cross (rightVec s) (lookDir s))

/-- Rotation of `v` by the quaternion `setFromAxisAngle(a, alpha)` via
`THREE.Vector3.applyQuaternion`: with `q = (a * sin(alpha/2), cos(alpha/2))`
and `t = 2 * cross(q.xyz, v)`, the result is `v + q.w * t + cross(q.xyz, t)`
(CameraRig.js lines 235-237). -/
def applyAxisAngle (a : Vec3) (alpha : ℝ) (v : Vec3) : Vec3 :=
  let qv := Vec3.smul (Real.sin (alpha / 2)) a
  let t := Vec3.smul 2 (Vec3.cross qv v)
  Vec3.add v (Vec3.add (Vec3.smul (Real.cos (alpha / 2)) t) (Vec3.cross qv t))

/-- The pan/tilt-adjusted forward direction: pan about the up axis, then tilt
about the right axis (line 237). -/
def adjustedForward (s : CameraState) : Vec3 :=
  applyAxisAngle (rightVec s) (degToRad s.tilt)
    (applyAxisAngle (upVec s) (degToRad s.pan) (lookDir s))

/-- `Math.max(lo, Math.min(hi, v))` as used for all clamping in the source. -/
def jsClamp (lo hi v : ℝ) : ℝ := max lo (min hi v)

/-- One clamped center coordinate of the viewport frame (lines 284-290):
`camC + (num / den) * (-cz)` fed through the NaN check and the clamp to
`[-w, w]`.  The `den = 0` branches spell out the IEEE special cases of the
JS expression: `0 / 0` is NaN, which `isNaN` replaces by `0` before
clamping; `num / 0` with `num != 0` is an infinity of the sign of
`num * (-cz)` (for `+0` denominator), passes `isNaN`, and saturates the
clamp at the corresponding bound. -/
def centerClamped (camC num den cz w : ℝ) : ℝ :=
  if den = 0 then
    if num = 0 then jsClamp (-w) w 0
    else if 0 ≤ num * (-cz) then max (-w) w else -w
  else jsClamp (-w) w (camC + num / den * (-cz))

/-- Assumed field of view in degrees (line 245). -/
def fovDeg : ℝ := 50

/-- Base viewport height at the image plane,
`2 * tan(fov/2) * distToPlane` with `distToPlane = |camZ|` (lines 250, 265). -/
def baseViewHeight (s : CameraState) : ℝ :=
  2 * Real.tan (degToRad (fovDeg / 2)) * |(positionOf s).z|

/-- The clamped view scale (lines 269-275): the scale matching the image
height plus a 10 percent margin, clamped to `[0.5, 2.0]`. -/
def viewScale (s : CameraState) (p : ImagePlane) : ℝ :=
  max 0.5 (min 2.0 ((p.imageHeight * 1.1) / baseViewHeight s))

/-- The derived viewport frame: clamped center, half extents, z offset and
flip flag (`viewportPlane.rotation.y = pi` when the camera is behind the
plane, line 314). -/
structure Frame where
  centerX : ℝ
  centerY : ℝ
  halfWidth : ℝ
  halfHeight : ℝ
  frameZ : ℝ
  flipped : Bool

/-- Pure embedding of `updateViewportFrame` (CameraRig.js lines 210-315).
Returns `none` when the frame is marked not visible (lines 252-257,
`distToPlane < 0.1`), otherwise the frame data written to the geometry:
`viewHeight = baseViewHeight * viewScale`, `viewWidth = viewHeight *
aspectRatio`, center coordinates both clamped to `[-imageWidth, imageWidth]`
(line 288: `maxOffset = this.imageWidth` for both axes), corner offsets
`hw = viewWidth / 2`, `hh = viewHeight / 2`, and `frameZ = 0.01` on the
front side, `-0.01` behind. -/
def viewportFrame (s : CameraState) (p : ImagePlane) : Option Frame :=
  if |(positionOf s).z| < 0.1 then none
  else
    some
      { centerX := centerClamped (positionOf s).x (adjustedForward s).x
          (adjustedForward s).z (positionOf s).z p.imageWidth
        centerY := centerClamped (positionOf s).y (adjustedForward s).y
          (adjustedForward s).z (positionOf s).z p.imageWidth
        halfWidth := baseViewHeight s * viewScale s p * p.aspectRatio / 2
        halfHeight := baseViewHeight s * viewScale s p / 2
        frameZ := if 0 < (positionOf s).z then 0.01 else -0.01
        flipped := if 0 < (positionOf s).z then false else true }

/-- The five own fields of the camera-state object, used to model
`Object.assign` on partial update objects. -/
inductive Field where
  | distance
  | orbitH
  | orbitV
  | pan
  | tilt
  deriving DecidableEq

/-- Read one field of the state object. -/
def getField (s : CameraState) : Field → ℝ
  | .distance => s.distance
  | .orbitH => s.orbitH
  | .orbitV => s.orbitV
  | .pan => s.pan
  | .tilt => s.tilt

/-- Assign one field of the state object. -/
def setField (s : CameraState) : Field × ℝ → CameraState
  | (.distance, v) => { s with distance := v }
  | (.orbitH, v) => { s with orbitH := v }
  | (.orbitV, v) => { s with orbitV := v }
  | (.pan, v) => { s with pan := v }
  | (.tilt, v) => { s with tilt := v }

/-- `Object.assign(this.state, newState)` (CameraRig.js line 174): a partial
update object is its list of own keys with values, in insertion order, each
assigned in turn. -/
def objectAssign (s : CameraState) (u : List (Field × ℝ)) : CameraState :=
  u.foldl setField s

/-- The value the last occurrence of field `f` carries in the partial update
object, if any. -/
def lastVal : List (Field × ℝ) → Field → Option ℝ
  | [], _ => none
  | (g, v) :: rest, f =>
    match lastVal rest f with
    | some w => some w
    | none => if g = f then some v else none

/-- The state owned by a `CameraRig` instance (constructor lines 12-27):
live camera state, the original state captured from analysis, the
shot-type/angle tags, and the image-plane descriptor. -/
structure Rig where
  state : CameraState
  originalState : CameraState
  originalShotType : Option String
  originalAngle : Option String
  aspectRatio : ℝ
  imageWidth : ℝ
  imageHeight : ℝ

/-- The rig as built by the constructor: default state, original a copy of
it, tags not yet set, 16:9 aspect, 2 by 2 image plane. -/
def initialRig : Rig :=
  { state := ⟨3, 0, 0, 0, 0⟩
    originalState := ⟨3, 0, 0, 0, 0⟩
    originalShotType := none
    originalAngle := none
    aspectRatio := 16 / 9
    imageWidth := 2
    imageHeight := 2 }

/-- The analysis payload as consumed by `setInitialState`: the fields it
reads, each possibly missing. -/
structure CameraInfo where
  distance : Option ℝ
  yaw : Option ℝ
  pitch : Option ℝ
  shotType : Option String
  angle : Option String

/-- The JS expression `v || d` for `v` a number field that may be missing:
`undefined` and `0` are falsy and yield the default. -/
def jsOrNum (v : Option ℝ) (d : ℝ) : ℝ :=
  match v with
  | none => d
  | some x => if x = 0 then d else x

/-- The camera state built from an analysis payload (CameraRig.js lines
157-163): `distance || 3`, `yaw || 0`, `pitch || 0`, pan and tilt zero. -/
def initialStateOf (info : CameraInfo) : CameraState :=
  ⟨jsOrNum info.distance 3, jsOrNum info.yaw 0, jsOrNum info.pitch 0, 0, 0⟩

/-- `setInitialState` (lines 155-171): overwrites the live state with the
mapped payload, stores a copy as the original state along with the
shot-type/angle tags. -/
def setInitialState (info : CameraInfo) (r : Rig) : Rig :=
  { r with
    state := initialStateOf info
    originalState := initialStateOf info
    originalShotType := info.shotType
    originalAngle := info.angle }

/-- `updateState` (lines 173-176): merges the partial update into the live
state. -/
def updateState (u : List (Field × ℝ)) (r : Rig) : Rig :=
  { r with state := objectAssign r.state u }

/-- `resetToOriginal` (lines 347-350): overwrites the live state with a copy
of the original state. -/
def resetToOriginal (r : Rig) : Rig :=
  { r with state := r.originalState }

/-- `setAspectRatio` (lines 144-147). -/
def setAspectRatio (ratio : ℝ) (r : Rig) : Rig :=
  { r with aspectRatio := ratio }

/-- `setImageSize` (lines 149-153). -/
def setImageSize (w h : ℝ) (r : Rig) : Rig :=
  { r with imageWidth := w, imageHeight := h }

/-- The snapshot returned by `getState` / `getOriginalState` (lines 352-366):
the five state fields together with the stored tags. -/
structure Snapshot where
  distance : ℝ
  orbitH : ℝ
  orbitV : ℝ
  pan : ℝ
  tilt : ℝ
  originalShotType : Option String
  originalAngle : Option String

/-- `getState` (lines 352-358): copies the live state and the tags. -/
def getState (r : Rig) : Snapshot :=
  ⟨r.state.distance, r.state.orbitH, r.state.orbitV, r.state.pan, r.state.tilt,
    r.originalShotType, r.originalAngle⟩

/-- `getOriginalState` (lines 360-366). -/
def getOriginalState (r : Rig) : Snapshot :=
  ⟨r.originalState.distance, r.originalState.orbitH, r.originalState.orbitV,
    r.originalState.pan, r.originalState.tilt, r.originalShotType, r.originalAngle⟩

/-- The mutating operations on a rig other than `setInitialState`, as driven
by the UI (main.js lines 194-344). -/
inductive RigOp where
  | update (u : List (Field × ℝ))
  | reset
  | setAspect (ratio : ℝ)
  | setSize (w h : ℝ)

/-- Apply one operation to the rig. -/
def applyOp (r : Rig) : RigOp → Rig
  | .update u => updateState u r
  | .reset => resetToOriginal r
  | .setAspect ratio => setAspectRatio ratio r
  | .setSize w h => setImageSize w h r

/-- The structured result of the analysis call (gemini.js prompt schema and
default record, lines 253-264). -/
structure AnalysisResult where
  distance : ℝ
  focalLength : ℝ
  pitch : ℝ
  yaw : ℝ
  roll : ℝ
  height : ℝ
  shotType : String
  angle : String
  lens : String
  description : String

/-- The fixed default record returned by `analyzeImage` on parse failure
(gemini.js lines 253-264). -/
def defaultAnalysis : AnalysisResult :=
  { distance := 3
    focalLength := 50
    pitch := 0
    yaw := 0
    roll := 0
    height := 1.6
    shotType := "medium shot"
    angle := "eye level"
    lens := "normal"
    description := "Unable to analyze camera position" }

/-- Outcome of the external generate-content call followed by JSON parsing:
either a parsed record or a thrown error carrying a message. -/
inductive GenOutcome where
  | parsed (r : AnalysisResult)
  | failure (msg : String)

/-- The JS expression `hay.includes(needle)`. -/
def jsIncludes (hay needle : String) : Bool :=
  decide (needle.data <:+: hay.data)

/-- The `try`/`catch` tail of `analyzeImage` (gemini.js lines 214-265): a
parsed response is returned as-is; on a thrown error whose message contains
the substring "API key" the error is re-thrown, otherwise the fixed default
record is returned. -/
def analyzeImage : GenOutcome → Except String AnalysisResult
  | .parsed r => .ok r
  | .failure msg =>
    if jsIncludes msg "API key" then .error msg else .ok defaultAnalysis

end CamControl

namespace CamControl

theorem abs_jsClamp_le (w v : ℝ) (hw : 0 ≤ w) : |jsClamp (-w) w v| ≤ w := by
  rw [jsClamp, abs_le]
  exact ⟨le_max_left _ _, max_le (by linarith) (min_le_left _ _)⟩

theorem abs_centerClamped_le (camC num den cz w : ℝ) (hw : 0 ≤ w) :
    |centerClamped camC num den cz w| ≤ w := by
  unfold centerClamped
  split_ifs with h1 h2 h3
  · exact abs_jsClamp_le w 0 hw
  · rw [max_eq_right (by linarith : -w ≤ w), abs_of_nonneg hw]
  · rw [abs_neg, abs_of_nonneg hw]
  · exact abs_jsClamp_le w _ hw

theorem centerClamped_nan_eq_zero (camC cz w : ℝ) (hw : 0 ≤ w) :
    centerClamped camC 0 0 cz w = 0 := by
  rw [centerClamped, if_pos rfl, if_pos rfl, jsClamp,
    min_eq_right hw, max_eq_right (neg_nonpos.mpr hw)]

/-- Claim C1: for every CameraState with `distance > 0` and `orbitV` strictly
inside (-90, 90) degrees, the camera position produced by `updatePosition`
has Euclidean norm equal to `distance`. -/
theorem positionOf_length_eq_distance (s : CameraState)
    (hd : 0 < s.distance) (hV : -90 < s.orbitV ∧ s.orbitV < 90) :
    (positionOf s).length = s.distance := by
  have hs1 : Real.sin (degToRad s.orbitH) ^ 2 + Real.cos (degToRad s.orbitH) ^ 2 = 1 :=
    Real.sin_sq_add_cos_sq _
  have hs2 : Real.sin (degToRad s.orbitV) ^ 2 + Real.cos (degToRad s.orbitV) ^ 2 = 1 :=
    Real.sin_sq_add_cos_sq _
  have hsum : (positionOf s).x ^ 2 + (positionOf s).y ^ 2 + (positionOf s).z ^ 2
      = s.distance ^ 2 := by
    simp only [positionOf]
    linear_combination (s.distance ^ 2 * Real.cos (degToRad s.orbitV) ^ 2) * hs1
      + s.distance ^ 2 * hs2
  rw [Vec3.length, hsum]
  exact Real.sqrt_sq hd.le

/-- Witness for C1 at the concrete state distance 3, all angles 0. -/
theorem positionOf_length_eq_distance_witness :
    (0 : ℝ) < 3 ∧ (-90 < (0 : ℝ) ∧ (0 : ℝ) < 90) ∧
      (positionOf ⟨3, 0, 0, 0, 0⟩).length = 3 :=
  ⟨by norm_num, ⟨by norm_num, by norm_num⟩,
    positionOf_length_eq_distance ⟨3, 0, 0, 0, 0⟩ (by norm_num) ⟨by norm_num, by norm_num⟩⟩

/-- Claim C2: whenever the absolute camera z coordinate is below the 0.1
threshold, `updateViewportFrame` returns the not-visible result (modelled as
`none`) before any plane-distance division takes place, so no NaN or
infinite coordinate is ever produced. -/
theorem viewportFrame_not_visible_near_plane (s : CameraState) (p : ImagePlane)
    (h : |(positionOf s).z| < 0.1) : viewportFrame s p = none := by
  rw [viewportFrame, if_pos h]

/-- Witness for C2 at distance 0 (camera at the origin, `camZ = 0`). -/
theorem viewportFrame_not_visible_near_plane_witness :
    |(positionOf ⟨0, 0, 0, 0, 0⟩).z| < 0.1 ∧
      viewportFrame ⟨0, 0, 0, 0, 0⟩ ⟨16 / 9, 2, 2⟩ = none := by
  have h : |(positionOf ⟨0, 0, 0, 0, 0⟩).z| < 0.1 := by
    simp [positionOf, degToRad]
    norm_num
  exact ⟨h, viewportFrame_not_visible_near_plane _ _ h⟩

/-- Claim C5: whenever the frame is produced and `distance` lies in
`[0.1, 1000]`, the final frame half-height is the base projected half-height
`baseViewHeight / 2` (with `baseViewHeight = 2 * tan(fov/2) * distToPlane`
for the fixed 50 degree FOV) multiplied by the view scale, and that scale
always lies within `[0.5, 2.0]`. -/
theorem viewportFrame_halfHeight_scale (s : CameraState) (p : ImagePlane)
    (hd1 : 0.1 ≤ s.distance) (hd2 : s.distance ≤ 1000)
    (hz : ¬ |(positionOf s).z| < 0.1) :
    ∃ f, viewportFrame s p = some f ∧
      f.halfHeight = baseViewHeight s / 2 * viewScale s p ∧
      0.5 ≤ viewScale s p ∧ viewScale s p ≤ 2.0 := by
  refine ⟨_, by rw [viewportFrame, if_neg hz], ?_, ?_, ?_⟩
  · dsimp only
    ring
  · exact le_max_left _ _
  · exact max_le (by norm_num) (min_le_left _ _)

/-- Witness for C5 at distance 3, all angles 0, the default image plane. -/
theorem viewportFrame_halfHeight_scale_witness :
    (0.1 : ℝ) ≤ 3 ∧ (3 : ℝ) ≤ 1000 ∧ ¬ |(positionOf ⟨3, 0, 0, 0, 0⟩).z| < 0.1 ∧
      (∃ f, viewportFrame ⟨3, 0, 0, 0, 0⟩ ⟨16 / 9, 2, 2⟩ = some f ∧
        f.halfHeight = baseViewHeight ⟨3, 0, 0, 0, 0⟩ / 2 *
          viewScale ⟨3, 0, 0, 0, 0⟩ ⟨16 / 9, 2, 2⟩ ∧
        0.5 ≤ viewScale ⟨3, 0, 0, 0, 0⟩ ⟨16 / 9, 2, 2⟩ ∧
        viewScale ⟨3, 0, 0, 0, 0⟩ ⟨16 / 9, 2, 2⟩ ≤ 2.0) := by
  have hz : ¬ |(positionOf ⟨3, 0, 0, 0, 0⟩).z| < 0.1 := by
    simp [positionOf, degToRad]
    norm_num
  exact ⟨by norm_num, by norm_num, hz,
    viewportFrame_halfHeight_scale _ _ (by norm_num) (by norm_num) hz⟩

/-- Claim C4 (amended): whenever the frame is produced, both clamped center
coordinates lie within `[-imageWidth, imageWidth]` (the source clamps the Y
coordinate to `maxOffset = imageWidth` as well, not to the image height),
and a NaN center coordinate (a `0 / 0` forward ratio) is replaced by a zero
offset. -/
theorem viewportFrame_center_clamped (s : CameraState) (p : ImagePlane)
    (hw : 0 ≤ p.imageWidth) (hz : ¬ |(positionOf s).z| < 0.1) :
    ∃ f, viewportFrame s p = some f ∧
      |f.centerX| ≤ p.imageWidth ∧ |f.centerY| ≤ p.imageWidth ∧
      ((adjustedForward s).z = 0 → (adjustedForward s).x = 0 → f.centerX = 0) ∧
      ((adjustedForward s).z = 0 → (adjustedForward s).y = 0 → f.centerY = 0) := by
  refine ⟨_, by rw [viewportFrame, if_neg hz], ?_, ?_, ?_, ?_⟩ <;> dsimp only
  · exact abs_centerClamped_le _ _ _ _ _ hw
  · exact abs_centerClamped_le _ _ _ _ _ hw
  · intro h1 h2
    rw [h1, h2]
    exact centerClamped_nan_eq_zero _ _ _ hw
  · intro h1 h2
    rw [h1, h2]
    exact centerClamped_nan_eq_zero _ _ _ hw

/-- Witness for C4 at distance 3, all angles 0, the default image plane. -/
theorem viewportFrame_center_clamped_witness :
    (0 : ℝ) ≤ 2 ∧ ¬ |(positionOf ⟨3, 0, 0, 0, 0⟩).z| < 0.1 ∧
      (∃ f, viewportFrame ⟨3, 0, 0, 0, 0⟩ ⟨16 / 9, 2, 2⟩ = some f ∧
        |f.centerX| ≤ (2 : ℝ) ∧ |f.centerY| ≤ (2 : ℝ) ∧
        ((adjustedForward ⟨3, 0, 0, 0, 0⟩).z = 0 →
          (adjustedForward ⟨3, 0, 0, 0, 0⟩).x = 0 → f.centerX = 0) ∧
        ((adjustedForward ⟨3, 0, 0, 0, 0⟩).z = 0 →
          (adjustedForward ⟨3, 0, 0, 0, 0⟩).y = 0 → f.centerY = 0)) := by
  have hz : ¬ |(positionOf ⟨3, 0, 0, 0, 0⟩).z| < 0.1 := by
    simp [positionOf, degToRad]
    norm_num
  exact ⟨by norm_num, hz, viewportFrame_center_clamped _ _ (by norm_num) hz⟩

theorem cex_position : positionOf ⟨1, 0, 0, 0, 45⟩ = ⟨0, 0, 1⟩ := by
  simp [positionOf, degToRad]

theorem cex_lookDir : lookDir ⟨1, 0, 0, 0, 45⟩ = ⟨0, 0, -1⟩ := by
  rw [lookDir, cex_position]
  norm_num [Vec3.neg, Vec3.normalize, Vec3.length, Vec3.smul, Real.sqrt_one]

theorem cex_rightVec : rightVec ⟨1, 0, 0, 0, 45⟩ = ⟨1, 0, 0⟩ := by
  rw [rightVec, cex_lookDir]
  norm_num [worldUp, Vec3.cross, Vec3.normalize, Vec3.length, Vec3.smul, Real.sqrt_one]

theorem cex_upVec : upVec ⟨1, 0, 0, 0, 45⟩ = ⟨0, 1, 0⟩ := by
  rw [upVec, cex_rightVec, cex_lookDir]
  norm_num [Vec3.cross, Vec3.normalize, Vec3.length, Vec3.smul, Real.sqrt_one]

theorem cex_rotate_pan : applyAxisAngle ⟨0, 1, 0⟩ 0 ⟨0, 0, -1⟩ = ⟨0, 0, -1⟩ := by
  norm_num [applyAxisAngle, Vec3.smul, Vec3.cross, Vec3.add]

theorem cex_rotate_tilt :
    applyAxisAngle ⟨1, 0, 0⟩ (Real.pi / 4) ⟨0, 0, -1⟩
      = ⟨0, Real.sqrt 2 / 2, -(Real.sqrt 2 / 2)⟩ := by
  have h2x : 2 * (Real.pi / 4 / 2) = Real.pi / 4 := by ring
  have hsk : Real.sqrt 2 / 2
      = 2 * Real.sin (Real.pi / 4 / 2) * Real.cos (Real.pi / 4 / 2) := by
    have h := Real.sin_two_mul (Real.pi / 4 / 2)
    rw [h2x, Real.sin_pi_div_four] at h
    exact h
  have hcc : Real.sqrt 2 / 2 = 2 * Real.cos (Real.pi / 4 / 2) ^ 2 - 1 := by
    have h := Real.cos_two_mul (Real.pi / 4 / 2)
    rw [h2x, Real.cos_pi_div_four] at h
    exact h
  have hpyth := Real.sin_sq_add_cos_sq (Real.pi / 4 / 2)
  simp only [applyAxisAngle, Vec3.smul, Vec3.cross, Vec3.add, Vec3.mk.injEq]
  refine ⟨by ring, by linear_combination -hsk, by linear_combination hcc + 2 * hpyth⟩

theorem cex_forward :
    adjustedForward ⟨1, 0, 0, 0, 45⟩ = ⟨0, Real.sqrt 2 / 2, -(Real.sqrt 2 / 2)⟩ := by
  have h0 : degToRad 0 = 0 := by rw [degToRad]; ring
  have h45 : degToRad 45 = Real.pi / 4 := by rw [degToRad]; ring
  rw [adjustedForward]
  dsimp only
  rw [h0, h45, cex_lookDir, cex_upVec, cex_rightVec, cex_rotate_pan, cex_rotate_tilt]

/-- Counterexample to claim C4 as stated: at distance 1 with tilt 45 degrees
and an image plane of width 4 and height 1/2, the produced frame has center
Y coordinate 1, which is outside the claimed bound of plus or minus the
image plane height (the source clamps Y to the image width instead). -/
theorem viewportFrame_centerY_exceeds_imageHeight :
    (viewportFrame ⟨1, 0, 0, 0, 45⟩ ⟨1, 4, 1 / 2⟩).map Frame.centerY = some 1 ∧
      ¬ |(1 : ℝ)| ≤ (⟨1, 4, 1 / 2⟩ : ImagePlane).imageHeight := by
  constructor
  · have hz : ¬ |(positionOf ⟨1, 0, 0, 0, 45⟩).z| < 0.1 := by
      rw [cex_position]
      norm_num
    rw [viewportFrame, if_neg hz, Option.map_some']
    have hs2 : (0 : ℝ) < Real.sqrt 2 := Real.sqrt_pos.mpr (by norm_num)
    have hden : -(Real.sqrt 2 / 2) ≠ 0 := by
      intro h
      rw [neg_eq_zero] at h
      linarith [h]
    have hratio : Real.sqrt 2 / 2 / -(Real.sqrt 2 / 2) = -1 := by
      rw [div_neg, div_self (by linarith : Real.sqrt 2 / 2 ≠ 0)]
    dsimp only
    rw [cex_position, cex_forward]
    dsimp only
    rw [centerClamped, if_neg hden, hratio, jsClamp]
    norm_num
  · norm_num

theorem getField_setField (s : CameraState) (g : Field) (v : ℝ) (f : Field) :
    getField (setField s (g, v)) f = if g = f then v else getField s f := by
  cases g <;> cases f <;> simp [setField, getField]

theorem getField_objectAssign (u : List (Field × ℝ)) (s : CameraState) (f : Field) :
    getField (objectAssign s u) f = (lastVal u f).getD (getField s f) := by
  induction u generalizing s with
  | nil => rfl
  | cons p rest ih =>
    obtain ⟨g, v⟩ := p
    rw [objectAssign, List.foldl_cons]
    rw [show List.foldl setField (setField s (g, v)) rest
        = objectAssign (setField s (g, v)) rest from rfl]
    rw [ih]
    cases hl : lastVal rest f with
    | some w => simp [lastVal, hl]
    | none =>
      rw [getField_setField]
      by_cases hgf : g = f <;> simp [lastVal, hl, hgf]

theorem originalState_foldl_updates (us : List (List (Field × ℝ))) (r : Rig) :
    (us.foldl (fun rg u => updateState u rg) r).originalState = r.originalState := by
  induction us generalizing r with
  | nil => rfl
  | cons u rest ih => exact ih _

theorem foldl_applyOp_preserves (ops : List RigOp) (r : Rig) :
    (ops.foldl applyOp r).originalState = r.originalState ∧
    (ops.foldl applyOp r).originalShotType = r.originalShotType ∧
    (ops.foldl applyOp r).originalAngle = r.originalAngle := by
  induction ops generalizing r with
  | nil => exact ⟨rfl, rfl, rfl⟩
  | cons op rest ih =>
    have hstep : (applyOp r op).originalState = r.originalState ∧
        (applyOp r op).originalShotType = r.originalShotType ∧
        (applyOp r op).originalAngle = r.originalAngle := by
      cases op <;> exact ⟨rfl, rfl, rfl⟩
    have hrest := ih (applyOp r op)
    exact ⟨hrest.1.trans hstep.1, hrest.2.1.trans hstep.2.1, hrest.2.2.trans hstep.2.2⟩

/-- Claim C3: after `setInitialState` captures the original state, any finite
sequence of `updateState` calls followed by `resetToOriginal` leaves the live
state equal to the captured original state. -/
theorem reset_restores_original (info : CameraInfo) (r : Rig)
    (us : List (List (Field × ℝ))) :
    (resetToOriginal
        (us.foldl (fun rg u => updateState u rg) (setInitialState info r))).state
      = (setInitialState info r).originalState := by
  show (us.foldl (fun rg u => updateState u rg)
      (setInitialState info r)).originalState = _
  exact originalState_foldl_updates us _

/-- Claim C6: `updateState` merges exactly the fields present in the partial
update (last write wins per field) and leaves every unspecified field
unchanged; in particular updating `distance` to `d` makes `getState`
report `d`, and updating `pan` leaves the other four fields untouched. -/
theorem updateState_merge_semantics (s : CameraState) (u : List (Field × ℝ))
    (f : Field) (r : Rig) (d : ℝ) :
    getField (objectAssign s u) f = (lastVal u f).getD (getField s f) ∧
    (getState (updateState [(Field.distance, d)] r)).distance = d ∧
    (updateState [(Field.pan, 10)] r).state.orbitH = r.state.orbitH ∧
    (updateState [(Field.pan, 10)] r).state.orbitV = r.state.orbitV ∧
    (updateState [(Field.pan, 10)] r).state.distance = r.state.distance ∧
    (updateState [(Field.pan, 10)] r).state.tilt = r.state.tilt :=
  ⟨getField_objectAssign u s f, rfl, rfl, rfl, rfl, rfl⟩

/-- Claim C9: no sequence of `updateState`, `resetToOriginal`,
`setAspectRatio` or `setImageSize` calls ever modifies the stored original
state or its shot-type/angle tags, while `setInitialState` replaces the
original state wholesale with the mapped payload. -/
theorem originalState_immutable (r : Rig) (ops : List RigOp) :
    (ops.foldl applyOp r).originalState = r.originalState ∧
    (ops.foldl applyOp r).originalShotType = r.originalShotType ∧
    (ops.foldl applyOp r).originalAngle = r.originalAngle ∧
    (∀ info : CameraInfo, (setInitialState info r).originalState = initialStateOf info) :=
  ⟨(foldl_applyOp_preserves ops r).1, (foldl_applyOp_preserves ops r).2.1,
    (foldl_applyOp_preserves ops r).2.2, fun _ => rfl⟩

/-- Counterexample to claim C7 as stated: for the payload with
`distance = 0` present, `setInitialState` yields distance 3 instead of the
reported value 0, because the JS default kicks in on every falsy value. -/
theorem setInitialState_zero_distance_cex :
    (setInitialState ⟨some 0, some 0, some 0, none, none⟩ initialRig).state.distance = 3
      ∧ (3 : ℝ) ≠ 0 := by
  constructor
  · simp [setInitialState, initialStateOf, jsOrNum]
  · norm_num

/-- Claim C7 (amended): `setInitialState` maps the payload with
`distance = payload.distance` when present and nonzero and 3 when missing or
zero (the zero case being the falsy-default correction), `orbitH = yaw`
(default 0), `orbitV = pitch` (default 0), and `pan = tilt = 0`; the
scenario `initialize(distance 3, yaw 0, pitch 0)` yields a `getState`
snapshot of `(3, 0, 0, 0, 0)`. -/
theorem setInitialState_maps_payload (info : CameraInfo) (r : Rig) :
    (setInitialState info r).state.distance
        = (if info.distance.getD 0 = 0 then 3 else info.distance.getD 0) ∧
    (setInitialState info r).state.orbitH = info.yaw.getD 0 ∧
    (setInitialState info r).state.orbitV = info.pitch.getD 0 ∧
    (setInitialState info r).state.pan = 0 ∧
    (setInitialState info r).state.tilt = 0 ∧
    getState (setInitialState ⟨some 3, some 0, some 0, none, none⟩ initialRig)
      = ⟨3, 0, 0, 0, 0, none, none⟩ := by
  refine ⟨?_, ?_, ?_, rfl, rfl, ?_⟩
  · cases hd : info.distance with
    | none => simp [setInitialState, initialStateOf, jsOrNum, hd]
    | some x =>
      by_cases hx : x = 0 <;> simp [setInitialState, initialStateOf, jsOrNum, hd, hx]
  · cases hy : info.yaw with
    | none => simp [setInitialState, initialStateOf, jsOrNum, hy]
    | some x =>
      by_cases hx : x = 0 <;> simp [setInitialState, initialStateOf, jsOrNum, hy, hx]
  · cases hp : info.pitch with
    | none => simp [setInitialState, initialStateOf, jsOrNum, hp]
    | some x =>
      by_cases hx : x = 0 <;> simp [setInitialState, initialStateOf, jsOrNum, hp, hx]
  · norm_num [getState, setInitialState, initialStateOf, jsOrNum, initialRig]

/-- Claim C10: when the analysis payload reports `distance` present but equal
to 0, `setInitialState` substitutes the default 3, since the JS default
substitution triggers on falsy values rather than only on missing fields. -/
theorem setInitialState_distance_zero_default (yaw pitch : Option ℝ)
    (st an : Option String) (r : Rig) :
    (setInitialState ⟨some 0, yaw, pitch, st, an⟩ r).state.distance = 3 := by
  simp [setInitialState, initialStateOf, jsOrNum]

/-- Claim C8: when the external response cannot be parsed, `analyzeImage`
returns the fixed default record (distance 3, focalLength 50, pitch 0,
yaw 0, roll 0, height 1.6, shot type "medium shot", angle "eye level",
lens "normal") instead of raising, except that an error whose message names
the API key propagates to the caller. -/
theorem analyzeImage_malformed_fallback (msg : String) :
    (jsIncludes msg "API key" = false →
      analyzeImage (.failure msg) = .ok defaultAnalysis) ∧
    (jsIncludes msg "API key" = true → analyzeImage (.failure msg) = .error msg) ∧
    defaultAnalysis.distance = 3 ∧ defaultAnalysis.focalLength = 50 ∧
    defaultAnalysis.pitch = 0 ∧ defaultAnalysis.yaw = 0 ∧ defaultAnalysis.roll = 0 ∧
    defaultAnalysis.height = 1.6 ∧ defaultAnalysis.shotType = "medium shot" ∧
    defaultAnalysis.angle = "eye level" ∧ defaultAnalysis.lens = "normal" := by
  refine ⟨fun h => ?_, fun h => ?_, rfl, rfl, rfl, rfl, rfl, rfl, rfl, rfl, rfl⟩
  · simp [analyzeImage, h]
  · simp [analyzeImage, h]

/-- Witness for C8: a plain JSON parse error message falls back to the
default record. -/
theorem analyzeImage_malformed_fallback_witness :
    analyzeImage (.failure "Unexpected token") = .ok defaultAnalysis :=
  (analyzeImage_malformed_fallback "Unexpected token").1 (by decide)

end CamControl
